import Mathlib

/-!
Verification development for the `nr-cif` library (UK rail CIF timetable
ingestion).  The Rust sources are shallowly embedded: each Lean definition
mirrors one Rust item from `src/parser.rs`, `src/types.rs` or
`src/schedule.rs`.  The embedding treats the input as a sequence of ASCII
characters (one `Char` per byte, as the format is ASCII-only), machine
integers as `Nat` (the parsers bound their results explicitly, mirroring
Rust's overflow-checked `str::parse`), `HashMap`s as association lists, and
fallible Rust functions as `Except`/`Option`-valued Lean functions, where an
`Option` layer marks places where the Rust code can terminate abnormally on
an out-of-bounds slice.
-/

set_option maxRecDepth 8000

deriving instance DecidableEq for Except

namespace NrCif

/-! ## Character and string helpers (models of Rust `str` operations) -/

/-- Model of an ASCII decimal digit test. -/
def isDig (c : Char) : Bool := 48 ≤ c.toNat && c.toNat ≤ 57

/-- Model of an ASCII binary digit test. -/
def isBin (c : Char) : Bool := c = '0' || c = '1'

/-- Numeric value of an ASCII digit. -/
def digVal (c : Char) : Nat := c.toNat - 48

/-- Model of Rust `str::trim` on the character list (whitespace stripped from
both ends). -/
def trimChars (l : List Char) : List Char :=
  ((l.dropWhile Char.isWhitespace).reverse.dropWhile Char.isWhitespace).reverse

/-- Model of Rust `str::trim`. -/
def strTrim (s : String) : String := String.mk (trimChars s.data)

/-- `digitsToNat? l` parses a non-empty all-decimal-digit character list to a
number, as the digit-consuming core of Rust `str::parse` for unsigned
integers. -/
def digitsToNat? (l : List Char) : Option Nat :=
  if l.isEmpty then none
  else if l.all isDig then some (l.foldl (fun a c => 10 * a + digVal c) 0)
  else none

/-- `binDigitsToNat? l` parses a non-empty all-binary-digit character list,
as the digit-consuming core of `u8::from_str_radix(_, 2)`. -/
def binDigitsToNat? (l : List Char) : Option Nat :=
  if l.isEmpty then none
  else if l.all isBin then some (l.foldl (fun a c => 2 * a + digVal c) 0)
  else none

/-- Strip the optional leading `'+'` sign accepted by Rust's unsigned
integer parsers. -/
def stripPlus : List Char → List Char
  | '+' :: rest => rest
  | l => l

/-- Model of Rust `str::parse::<uN>()`: an optional leading `'+'`, then a
non-empty run of decimal digits, and the value must fit in the target type
(`max` is the largest representable value, e.g. 255 for `u8`). -/
def rustParseUInt? (s : String) (max : Nat) : Option Nat :=
  match digitsToNat? (stripPlus s.data) with
  | some n => if n ≤ max then some n else none
  | none => none

/-- Model of Rust `uN::from_str_radix(s, 2)`: an optional leading `'+'`, then
a non-empty run of binary digits, value bounded by `max`. -/
def rustParseRadix2? (s : String) (max : Nat) : Option Nat :=
  match binDigitsToNat? (stripPlus s.data) with
  | some n => if n ≤ max then some n else none
  | none => none

/-- Model of the Rust byte-slice expression `&s[a..b]`, which panics (returns
`none` here) when the range is out of bounds.  In the ASCII embedding one
character is one byte, so no character-boundary condition arises. -/
def rustSlice? (s : String) (a b : Nat) : Option String :=
  if a ≤ b ∧ b ≤ s.data.length then some (String.mk ((s.data.drop a).take (b - a)))
  else none

/-- Infallible slice of a character-list row, for the fixed-width record
fields (`record[a..b]` on an 80-character row). -/
def sliceStr (l : List Char) (a b : Nat) : String :=
  String.mk ((l.drop a).take (b - a))

/-! ## Dates and times (model of the used fragment of `chrono`) -/

/-- Model of `chrono::NaiveDate` (proleptic Gregorian calendar date). -/
structure RDate where
  year : Nat
  month : Nat
  day : Nat
deriving DecidableEq

/-- Model of `chrono::NaiveTime` at the precision the library uses. -/
structure RTime where
  hour : Nat
  minute : Nat
deriving DecidableEq

/-- Model of `chrono::NaiveDateTime`. -/
structure RDateTime where
  date : RDate
  time : RTime
deriving DecidableEq

/-- Stand-in for `NaiveDateTime::MIN` (only used as an initial sentinel). -/
def RDateTime.min : RDateTime := ⟨⟨0, 1, 1⟩, ⟨0, 0⟩⟩

def isLeapYear (y : Nat) : Bool := y % 4 = 0 && (y % 100 ≠ 0 || y % 400 = 0)

def daysInMonth (y m : Nat) : Nat :=
  if m = 2 then (if isLeapYear y then 29 else 28)
  else if m = 4 ∨ m = 6 ∨ m = 9 ∨ m = 11 then 30
  else 31

/-- `chrono`'s `%y` two-digit year mapping: 00–68 → 2000s, 69–99 → 1900s. -/
def yearFromTwoDigit (yy : Nat) : Nat := if yy ≤ 68 then 2000 + yy else 1900 + yy

/-- Model of `NaiveDate::parse_from_str(s, "%y%m%d")` restricted to the
fixed-width six-character fields the library feeds it. -/
def parseYYMMDD? (s : String) : Option RDate :=
  match s.data with
  | [y1, y2, m1, m2, d1, d2] =>
    if isDig y1 && isDig y2 && isDig m1 && isDig m2 && isDig d1 && isDig d2 then
      let y := yearFromTwoDigit (10 * digVal y1 + digVal y2)
      let m := 10 * digVal m1 + digVal m2
      let d := 10 * digVal d1 + digVal d2
      if 1 ≤ m ∧ m ≤ 12 ∧ 1 ≤ d ∧ d ≤ daysInMonth y m then some ⟨y, m, d⟩ else none
    else none
  | _ => none

/-- Model of `NaiveDate::parse_from_str(s, "%d%m%y")` restricted to the
fixed-width six-character fields the library feeds it. -/
def parseDDMMYY? (s : String) : Option RDate :=
  match s.data with
  | [d1, d2, m1, m2, y1, y2] =>
    if isDig y1 && isDig y2 && isDig m1 && isDig m2 && isDig d1 && isDig d2 then
      let y := yearFromTwoDigit (10 * digVal y1 + digVal y2)
      let m := 10 * digVal m1 + digVal m2
      let d := 10 * digVal d1 + digVal d2
      if 1 ≤ m ∧ m ≤ 12 ∧ 1 ≤ d ∧ d ≤ daysInMonth y m then some ⟨y, m, d⟩ else none
    else none
  | _ => none

/-- Model of `NaiveTime::parse_from_str(s, "%H%M")` restricted to the
fixed-width four-character fields the library feeds it. -/
def parseHHMM? (s : String) : Option RTime :=
  match s.data with
  | [h1, h2, m1, m2] =>
    if isDig h1 && isDig h2 && isDig m1 && isDig m2 then
      let h := 10 * digVal h1 + digVal h2
      let m := 10 * digVal m1 + digVal m2
      if h ≤ 23 ∧ m ≤ 59 then some ⟨h, m⟩ else none
    else none
  | _ => none

/-! ## `src/types.rs`: the record model

`CIFRecord` mirrors the tagged union of `types.rs` (field names and order as
in the Rust source; integer fields `capitals_identification`, `nlc`,
`stanox` become `Nat`). -/

inductive CIFRecord where
  | Header (file_mainframe_identity date_of_extract time_of_extract
      current_file_reference last_file_reference : String)
      (update_indicator version : Char)
      (user_start_date user_end_date : String)
  | TIPLOCInsert (tiploc : String) (capitals_identification nlc : Nat)
      (nlc_check_char : Char) (tps_description : String) (stanox : Nat)
      (po_mcp_code three_alpha_code nlc_description : String)
  | TIPLOCAmend (tiploc : String) (capitals_identification nlc : Nat)
      (nlc_check_char : Char) (tps_description : String) (stanox : Nat)
      (po_mcp_code three_alpha_code nlc_description new_tiploc : String)
  | TIPLOCDelete (tiploc : String)
  | Association (transaction_type : Char)
      (main_train_uid associated_train_uid association_start_date
       association_end_date association_days association_category : String)
      (association_date_indicator : Char) (association_location : String)
      (base_location_suffix association_location_suffix : String)
      (diagram_type association_type stp_indicator : Char)
  | BasicSchedule (transaction_type : Char)
      (train_uid date_runs_from date_runs_to days_run : String)
      (bank_holiday_running train_status : Char)
      (train_category train_identity headcode : String)
      (course_indicator : Char) (train_service_code : String)
      (portion_id : Char)
      (power_type timing_load speed operating_characteristics : String)
      (seating_class sleepers reservations connection_indicator : Char)
      (catering_code service_branding : String) (stp_indicator : Char)
  | BasicScheduleExtended (traction_class uic_code atoc_code : String)
      (applicable_timetable_code : Char)
  | LocationOrigin (location scheduled_departure_time public_departure_time
      platform line engineering_allowance pathing_allowance activity
      performance_allowance : String)
  | LocationIntermediate (location scheduled_arrival_time
      scheduled_departure_time scheduled_pass public_arrival_time
      public_departure_time platform line path activity
      engineering_allowance pathing_allowance performance_allowance : String)
  | ChangeEnRoute (location train_category train_identity headcode : String)
      (course_indicator : Char) (profit_centre_code : String)
      (business_sector : Char)
      (power_type timing_load speed operating_chars : String)
      (train_class sleepers reservations connect_indicator : Char)
      (catering_code service_branding traction_class uic_code
       retail_train_id : String)
  | LocationTerminate (location scheduled_arrival_time public_arrival_time
      platform path activity : String)
  | Trailer
deriving DecidableEq

/-- Mirrors `CIFFile` of `types.rs`. -/
structure CIFFile where
  records : List CIFRecord
deriving DecidableEq

/-- Mirrors `CIFRecord::kind` of `types.rs`. -/
def CIFRecord.kind : CIFRecord → String
  | .Header _ _ _ _ _ _ _ _ _ => "HD"
  | .TIPLOCInsert _ _ _ _ _ _ _ _ _ => "TI"
  | .TIPLOCAmend _ _ _ _ _ _ _ _ _ _ => "TA"
  | .TIPLOCDelete _ => "TD"
  | .Association _ _ _ _ _ _ _ _ _ _ _ _ _ _ => "AA"
  | .BasicSchedule _ _ _ _ _ _ _ _ _ _ _ _ _ _ _ _ _ _ _ _ _ _ _ _ => "BS"
  | .BasicScheduleExtended _ _ _ _ => "BX"
  | .LocationOrigin _ _ _ _ _ _ _ _ _ => "LO"
  | .LocationIntermediate _ _ _ _ _ _ _ _ _ _ _ _ _ => "LI"
  | .ChangeEnRoute _ _ _ _ _ _ _ _ _ _ _ _ _ _ _ _ _ _ _ _ => "CR"
  | .LocationTerminate _ _ _ _ _ _ => "LT"
  | .Trailer => "ZZ"

/-! ## `src/parser.rs`: the record decoder

`CIFParseError` mirrors the error enum; `AtLine` nests an inner error. -/

inductive CIFParseError where
  | AtLine (line : Nat) (inner : CIFParseError)
  | Read
  | InvalidRecordType (tag : String)
  | GarbledRecord
  | FailedToParseDateOfExtract
  | FailedToParseTimeOfExtract
  | InvalidUpdateIndicator
  | InvalidCapitalsIdentification
  | InvalidNLC
  | InvalidStanox
deriving DecidableEq

/-- Mirrors `parse_header` of `parser.rs` on an 80-character row.  The Rust
function validates the extract/user dates and times with `chrono` (every
failure is mapped to `FailedToParseDateOfExtract`, as in the source) and the
update indicator, then builds the record; the record's payload carries the
raw fixed-width slices as declared in `types.rs`. -/
def parseHeader (row : List Char) : Except CIFParseError CIFRecord := do
  let date_of_extract := sliceStr row 22 28
  if (parseYYMMDD? date_of_extract).isNone then
    throw .FailedToParseDateOfExtract
  let time_of_extract := sliceStr row 28 32
  if (parseHHMM? time_of_extract).isNone then
    throw .FailedToParseDateOfExtract
  let update_indicator ← match row.get? 46 with
    | none => throw .GarbledRecord
    | some c =>
      if c = 'U' ∨ c = 'F' then pure c else throw .InvalidUpdateIndicator
  let version ← match row.get? 47 with
    | none => throw .GarbledRecord
    | some c => pure c
  if (parseYYMMDD? (sliceStr row 48 54)).isNone then
    throw .FailedToParseDateOfExtract
  if (parseYYMMDD? (sliceStr row 54 60)).isNone then
    throw .FailedToParseDateOfExtract
  pure (.Header (sliceStr row 2 22) date_of_extract time_of_extract
    (sliceStr row 32 39) (sliceStr row 39 46) update_indicator version
    (sliceStr row 48 54) (sliceStr row 54 60))

/-- Mirrors `parse_tiploc_insert` of `parser.rs`.  (The Rust function does
not populate `po_mcp_code`, a field `types.rs` declares at columns 49–53;
the embedding carries that slice so the record matches `types.rs`.) -/
def parseTiplocInsert (row : List Char) : Except CIFParseError CIFRecord := do
  let capitals ← match rustParseUInt? (sliceStr row 9 11) 255 with
    | some n => pure n
    | none => throw .InvalidCapitalsIdentification
  let nlc ← match rustParseUInt? (sliceStr row 11 17) 4294967295 with
    | some n => pure n
    | none => throw .InvalidNLC
  let check ← match row.get? 17 with
    | none => throw .GarbledRecord
    | some c => pure c
  let stanox ← match rustParseUInt? (sliceStr row 44 49) 4294967295 with
    | some n => pure n
    | none => throw .InvalidStanox
  pure (.TIPLOCInsert (sliceStr row 2 9) capitals nlc check
    (sliceStr row 18 44) stanox (sliceStr row 49 53) (sliceStr row 53 56)
    (sliceStr row 56 72))

/-- Mirrors `parse_tiploc_amend` of `parser.rs`. -/
def parseTiplocAmend (row : List Char) : Except CIFParseError CIFRecord := do
  let capitals ← match rustParseUInt? (sliceStr row 9 11) 255 with
    | some n => pure n
    | none => throw .InvalidCapitalsIdentification
  let nlc ← match rustParseUInt? (sliceStr row 11 17) 4294967295 with
    | some n => pure n
    | none => throw .InvalidNLC
  let check ← match row.get? 17 with
    | none => throw .GarbledRecord
    | some c => pure c
  let stanox ← match rustParseUInt? (sliceStr row 44 49) 4294967295 with
    | some n => pure n
    | none => throw .InvalidStanox
  pure (.TIPLOCAmend (sliceStr row 2 9) capitals nlc check
    (sliceStr row 18 44) stanox (sliceStr row 49 53) (sliceStr row 53 56)
    (sliceStr row 56 72) (sliceStr row 72 79))

/-- Mirrors `parse_tiploc_delete` of `parser.rs`. -/
def parseTiplocDelete (row : List Char) : Except CIFParseError CIFRecord :=
  pure (.TIPLOCDelete (sliceStr row 2 9))

/-- The record-type dispatch of `parse_cif` (`parser.rs` lines 50–64):
`none` for an unknown two-character tag, otherwise the per-kind result.
Rows tagged `AA`, `BS`, `BX`, `LO`, `LI`, `CR`, `LT` and `ZZ` all produce
`CIFRecord::Trailer` in the source. -/
def parseRowRecord? (record_type : String) (row : List Char) :
    Option (Except CIFParseError CIFRecord) :=
  if record_type = "HD" then some (parseHeader row)
  else if record_type = "TI" then some (parseTiplocInsert row)
  else if record_type = "TA" then some (parseTiplocAmend row)
  else if record_type = "TD" then some (parseTiplocDelete row)
  else if record_type = "AA" then some (pure .Trailer)
  else if record_type = "BS" then some (pure .Trailer)
  else if record_type = "BX" then some (pure .Trailer)
  else if record_type = "LO" then some (pure .Trailer)
  else if record_type = "LI" then some (pure .Trailer)
  else if record_type = "CR" then some (pure .Trailer)
  else if record_type = "LT" then some (pure .Trailer)
  else if record_type = "ZZ" then some (pure .Trailer)
  else none

/-- The `loop` of `parse_cif`, with an explicit structural fuel so the
kernel can evaluate it (the Rust loop consumes 81 bytes per iteration, so
`input.length` iterations always suffice; fuel 0 is only reached on empty
input, where `read_exact` fails exactly as in the source).  State: the
remaining input, the 1-based human-readable line counter, and the records
accumulated so far. -/
def parseCIFLoop : Nat → List Char → Nat → List CIFRecord →
    Except CIFParseError (List CIFRecord)
  | 0, _, _, _ => .error .Read
  | fuel + 1, input, line, acc =>
    if input.length < 81 then .error .Read
    else
      let row := (input.take 81).take 80
      let record_type := String.mk (row.take 2)
      match parseRowRecord? record_type row with
      | none => .error (.InvalidRecordType record_type)
      | some (.error e) => .error (.AtLine line e)
      | some (.ok record) =>
        if record_type = "ZZ" then .ok (acc ++ [record])
        else parseCIFLoop fuel (input.drop 81) (line + 1) (acc ++ [record])

/-- Mirrors `parse_cif` of `parser.rs`, on the whole input byte stream. -/
def parseCIF (input : List Char) : Except CIFParseError CIFFile :=
  (parseCIFLoop input.length input 1 []).map CIFFile.mk

/-! ## `src/schedule.rs`: the schedule application engine -/

/-- Mirrors `ScheduleApplyError` of `schedule.rs`. -/
inductive ScheduleApplyError where
  | InvalidHeaderDateTime (s : String)
  | InvalidScheduleDate (s : String)
  | InvalidDaysRun (s : String)
  | InvalidTrainStatus (c : Char)
  | InvalidTrainCategory (s : String)
  | InvalidPowerType (s : String)
  | InvalidTimingLoad (s : String)
  | InvalidOperatingCharacteristic (c : Char)
  | InvalidSeatingClass (c : Char)
  | InvalidSleepers (c : Char)
  | InvalidReservations (c : Char)
  | InvalidCateringCode (c : Char)
  | InvalidSTPIndicator (c : Char)
  | InvalidJourneyTime (s : String)
deriving DecidableEq

/-- Mirrors the `DaysRun` bitflags: a 7-bit day-of-week mask. -/
structure DaysRun where
  bits : Nat
deriving DecidableEq

def DaysRun.MONDAY : DaysRun := ⟨0b1000000⟩
def DaysRun.TUESDAY : DaysRun := ⟨0b0100000⟩
def DaysRun.WEDNESDAY : DaysRun := ⟨0b0010000⟩
def DaysRun.THURSDAY : DaysRun := ⟨0b0001000⟩
def DaysRun.FRIDAY : DaysRun := ⟨0b0000100⟩
def DaysRun.SATURDAY : DaysRun := ⟨0b0000010⟩
def DaysRun.SUNDAY : DaysRun := ⟨0b0000001⟩

/-- Mirrors `DaysRun::empty()` from the `bitflags!` expansion. -/
def DaysRun.emptyFlags : DaysRun := ⟨0⟩

/-- Mirrors `DaysRun::from_bits`: `None` when the value carries a bit
outside the seven defined day flags. -/
def DaysRun.fromBits (v : Nat) : Option DaysRun :=
  if v ≤ 0b1111111 then some ⟨v⟩ else none

inductive BankHolidayRunning where
  | RunsNormally
  | NotOnSpecificBankHolidayMondays
  | NotOnGlasgowBankHolidays
deriving DecidableEq

inductive TrainStatus where
  | Bus
  | Freight
  | PassengerAndParcels
  | Ship
  | Trip
  | STPPassengerAndParcels
  | STPFreight
  | STPTrip
  | STPShip
  | STPBus
  | NotSpecified
deriving DecidableEq

inductive TrainCategory where
  | NotSpecified
  | LondonUnderground
  | UnadvertisedOrdinaryPassenger
  | OrdinaryPassenger
  | StaffTrain
  | Mixed
  | ChannelTunnel
  | Sleeper
  | International
  | Motorail
  | UnadvertisedExpress
  | ExpressPassenger
  | SleeperDomestic
  | BusReplacementDueToEngineering
  | BusWTTService
  | Ship
  | EmptyCoachingStock
  | ECSLondonUnderground
  | ECSAndStaff
  | Postal
  | PostOfficeControlledParcels
  | Parcels
  | EmptyNPCCS
  | Departmental
  | CivilEngineer
  | MechanicalAndElectricalEngineer
  | Stores
  | Test
  | SignalAndTelecommunicationsEngineer
  | LocomotiveAndBrakeVan
  | LightLocomotive
  | RfDAutomotiveComponents
  | RfDAutomotiveVehicles
  | RfDEdibleProducts
  | RfDIndustrialMinerals
  | RfDChemicals
  | RfDBuildingMaterials
  | RfDGeneralMerchandise
  | RfDEuropean
  | RfDFreightlinerContracts
  | RfDFreightlinerOther
  | CoalDistributive
  | CoalElectricityMGR
  | CoalOtherAndNuclear
  | Metals
  | Aggregates
  | DomesticAndIndustrialWaste
  | BuildingMaterials
  | PetroleumProducts
  | RfDEuropeanChannelTunnelMixed
  | RfDEuropeanChannelTunnelIntermodal
  | RfDEuropeanChannelTunnelAutomotive
  | RfDEuropeanChannelTunnelContractServices
  | RfDEuropeanChannelTunnelHaulmark
  | RfDEuropeanChannelTunnelJointVenture
deriving DecidableEq

inductive PowerType where
  | Diesel
  | DieselElectricMultipleUnit
  | DieselMechanicalMultipleUnit
  | Electric
  | ElectroDiesel
  | EMUPlusLocomotive
  | ElectricMultipleUnit
  | HighSpeedTrain
  | NotSpecified
deriving DecidableEq

inductive OperatingCharacteristic where
  | VacuumBraked
  | TimedAt100MPH
  | DOOCoachingStockTrains
  | ConveysMark4Coaches
  | GuardRequired
  | TimedAt110MPH
  | PushPullTrain
  | RunsAsRequired
  | AirConditionedWithPASystem
  | SteamHeated
  | RunsToTerminalsAsRequired
  | MayConveyTrafficToSB1CGauge
deriving DecidableEq

inductive TimingLoad where
  | NotSpecified
  | Class17201721Or1722
  | Class141To144
  | Class158168170Or175
  | Class1650
  | Class150153155Or156
  | Class1651Or166
  | Class220Or221
  | Class159
  | DMUPowerCarTrailer
  | DMU2PowerCarsTrailer
  | DMUPowerTwin
  | AcceleratedTimings
  | Class458
  | Class380
  | Class3501110MPH
  | Class325ElectricParcelsUnit
  | SpecificClass (n : Nat)
  | LoadInTonnes (n : Nat)
deriving DecidableEq

inductive SeatingClass where
  | FirstAndStandard
  | StandardOnly
  | NotSpecified
deriving DecidableEq

inductive Sleepers where
  | FirstAndStandard
  | FirstOnly
  | StandardOnly
  | NotSpecified
deriving DecidableEq

inductive Reservations where
  | Compulsory
  | CompulsoryForBicycles
  | Recommended
  | Possible
  | NotSpecified
deriving DecidableEq

inductive Catering where
  | NotSpecified
  | BuffetService
  | RestaurantCarForFirstClass
  | HotFood
  | MealForFirstClass
  | WheelchairReservations
  | Restaurant
  | TrolleyService
deriving DecidableEq

inductive STPIndicator where
  | NewSTPAssociation
  | STPCancellationOfPermanentAssociation
  | STPOverlayOfPermanentAssociation
  | PermanentAssociation
deriving DecidableEq

/-- Mirrors `JourneyTime` of `schedule.rs` (`u8` fields become `Nat`). -/
structure JourneyTime where
  hour : Nat
  minute : Nat
  half : Bool
deriving DecidableEq

/-- Mirrors `JourneyLocation` of `schedule.rs`. -/
structure JourneyLocation where
  tiploc : String
  arrival_time : Option JourneyTime
  departure_time : Option JourneyTime
  passing_time : Option JourneyTime
  public_arrival : Option JourneyTime
  public_departure : Option JourneyTime
  platform : String
  line : String
  activity : String
deriving DecidableEq

/-- Mirrors `TIPLOC` of `schedule.rs`. -/
structure TIPLOC where
  tiploc : String
  three_alpha_code : String
  description : String
deriving DecidableEq

/-- Mirrors `Schedule` of `schedule.rs`. -/
structure Schedule where
  train_uid : String
  runs_from : RDate
  runs_to : RDate
  days_run : DaysRun
  bank_holiday_running : BankHolidayRunning
  atoc_code : String
  subject_to_performance_monitoring : Bool
  train_status : TrainStatus
  train_category : TrainCategory
  headcode : String
  portion_id : Char
  power_type : PowerType
  timing_load : TimingLoad
  speed : Nat
  operating_characteristics : List OperatingCharacteristic
  seating_class : SeatingClass
  sleepers : Sleepers
  reservations : Reservations
  catering : List Catering
  stp_indicator : STPIndicator
  journey : List JourneyLocation
deriving DecidableEq

/-- Stand-in for `NaiveDate::MIN` (initial sentinel in `Schedule::new`). -/
def RDate.min : RDate := ⟨0, 1, 1⟩

/-- Mirrors `Schedule::new` of `schedule.rs`. -/
def Schedule.new : Schedule where
  train_uid := ""
  runs_from := RDate.min
  runs_to := RDate.min
  days_run := DaysRun.emptyFlags
  bank_holiday_running := .RunsNormally
  atoc_code := ""
  subject_to_performance_monitoring := false
  train_status := .PassengerAndParcels
  train_category := .NotSpecified
  headcode := ""
  portion_id := ' '
  power_type := .Diesel
  timing_load := .LoadInTonnes 0
  speed := 0
  operating_characteristics := []
  seating_class := .NotSpecified
  sleepers := .NotSpecified
  reservations := .Possible
  catering := []
  stp_indicator := .PermanentAssociation
  journey := []

/-! ### Association-list model of `HashMap`

The two `HashMap`s of `ScheduleDatabase` are modelled as association lists
with unique keys; the operations below implement the `HashMap` methods the
source uses (`insert`, `remove`, `get`/lookup, and the `entry` API's
`and_modify` / `and_modify().or_insert(..)` combinations). -/

/-- `HashMap::get` / `contains_key` (lookup). -/
def mapFind? {V : Type} (k : String) (m : List (String × V)) : Option V :=
  match m with
  | [] => none
  | (k', v) :: rest => if k' = k then some v else mapFind? k rest

/-- `HashMap::insert` (replace any existing binding). -/
def mapInsert {V : Type} (k : String) (v : V) (m : List (String × V)) :
    List (String × V) :=
  match m with
  | [] => [(k, v)]
  | (k', v') :: rest =>
    if k' = k then (k, v) :: rest else (k', v') :: mapInsert k v rest

/-- `HashMap::remove`. -/
def mapRemove {V : Type} (k : String) (m : List (String × V)) :
    List (String × V) :=
  match m with
  | [] => []
  | (k', v') :: rest =>
    if k' = k then rest else (k', v') :: mapRemove k rest

/-- `entry(k).and_modify(f)` with no `or_insert`: update the binding in
place when the key is present, leave the map unchanged otherwise. -/
def mapAndModify {V : Type} (k : String) (f : V → V) (m : List (String × V)) :
    List (String × V) :=
  match m with
  | [] => []
  | (k', v') :: rest =>
    if k' = k then (k', f v') :: rest else (k', v') :: mapAndModify k f rest

/-- `entry(k).and_modify(f).or_insert(d)`: update in place when present,
insert `d` (not `f d`) when absent. -/
def mapAndModifyOrInsert {V : Type} (k : String) (f : V → V) (d : V)
    (m : List (String × V)) : List (String × V) :=
  match m with
  | [] => [(k, d)]
  | (k', v') :: rest =>
    if k' = k then (k', f v') :: rest
    else (k', v') :: mapAndModifyOrInsert k f d rest

/-- Mirrors `ScheduleDatabase` of `schedule.rs`. -/
structure ScheduleDatabase where
  extract_date_time : RDateTime
  tiplocs : List (String × TIPLOC)
  schedules : List (String × List Schedule)
deriving DecidableEq

/-- Mirrors `ScheduleDatabase::new`. -/
def ScheduleDatabase.new : ScheduleDatabase where
  extract_date_time := RDateTime.min
  tiplocs := []
  schedules := []

/-! ### Field resolvers of `bs_record_to_schedule`

Each resolver mirrors one `match`/`if` block of `bs_record_to_schedule`
(`schedule.rs` lines 855–1127); error payloads carry the untrimmed field
string exactly as in the source. -/

/-- Days-run resolution (`schedule.rs` lines 881–885):
`u8::from_str_radix(days_run, 2)` then `DaysRun::from_bits`. -/
def daysRunFor (days_run : String) : Except ScheduleApplyError DaysRun :=
  match rustParseRadix2? days_run 255 with
  | none => .error (.InvalidDaysRun days_run)
  | some v =>
    match DaysRun.fromBits v with
    | some d => .ok d
    | none => .error (.InvalidDaysRun days_run)

/-- Bank-holiday-running resolution (lines 886–890). -/
def bankHolidayFor (c : Char) : BankHolidayRunning :=
  if c = 'X' then .NotOnSpecificBankHolidayMondays
  else if c = 'G' then .NotOnGlasgowBankHolidays
  else .RunsNormally

/-- Train-status resolution (lines 891–904). -/
def trainStatusFor (c : Char) : Except ScheduleApplyError TrainStatus :=
  if c = ' ' then .ok .NotSpecified
  else if c = 'B' then .ok .Bus
  else if c = 'F' then .ok .Freight
  else if c = 'P' then .ok .PassengerAndParcels
  else if c = 'S' then .ok .Ship
  else if c = 'T' then .ok .Trip
  else if c = '1' then .ok .STPPassengerAndParcels
  else if c = '2' then .ok .STPFreight
  else if c = '3' then .ok .STPTrip
  else if c = '4' then .ok .STPShip
  else if c = '5' then .ok .STPBus
  else .error (.InvalidTrainStatus c)

/-- Train-category resolution (lines 905–966). -/
def trainCategoryFor (s : String) : Except ScheduleApplyError TrainCategory :=
  match s with
  | "  " => .ok .NotSpecified
  | "OL" => .ok .LondonUnderground
  | "OU" => .ok .UnadvertisedOrdinaryPassenger
  | "OO" => .ok .OrdinaryPassenger
  | "OS" => .ok .StaffTrain
  | "OW" => .ok .Mixed
  | "XC" => .ok .ChannelTunnel
  | "XD" => .ok .Sleeper
  | "XI" => .ok .International
  | "XR" => .ok .Motorail
  | "XU" => .ok .UnadvertisedExpress
  | "XX" => .ok .ExpressPassenger
  | "XZ" => .ok .SleeperDomestic
  | "BR" => .ok .BusReplacementDueToEngineering
  | "BS" => .ok .BusWTTService
  | "SS" => .ok .Ship
  | "EE" => .ok .EmptyCoachingStock
  | "EL" => .ok .ECSLondonUnderground
  | "ES" => .ok .ECSAndStaff
  | "JJ" => .ok .Postal
  | "PM" => .ok .PostOfficeControlledParcels
  | "PP" => .ok .Parcels
  | "PV" => .ok .EmptyNPCCS
  | "DD" => .ok .Departmental
  | "DH" => .ok .CivilEngineer
  | "DI" => .ok .MechanicalAndElectricalEngineer
  | "DQ" => .ok .Stores
  | "DT" => .ok .Test
  | "DY" => .ok .SignalAndTelecommunicationsEngineer
  | "ZB" => .ok .LocomotiveAndBrakeVan
  | "ZZ" => .ok .LightLocomotive
  | "J2" => .ok .RfDAutomotiveComponents
  | "H2" => .ok .RfDAutomotiveVehicles
  | "J3" => .ok .RfDEdibleProducts
  | "J4" => .ok .RfDIndustrialMinerals
  | "J5" => .ok .RfDChemicals
  | "J6" => .ok .RfDBuildingMaterials
  | "J8" => .ok .RfDGeneralMerchandise
  | "H8" => .ok .RfDEuropean
  | "J9" => .ok .RfDFreightlinerContracts
  | "H9" => .ok .RfDFreightlinerOther
  | "A0" => .ok .CoalDistributive
  | "E0" => .ok .CoalElectricityMGR
  | "B0" => .ok .CoalOtherAndNuclear
  | "B1" => .ok .Metals
  | "B4" => .ok .Aggregates
  | "B5" => .ok .DomesticAndIndustrialWaste
  | "B6" => .ok .BuildingMaterials
  | "B7" => .ok .PetroleumProducts
  | "H0" => .ok .RfDEuropeanChannelTunnelMixed
  | "H1" => .ok .RfDEuropeanChannelTunnelIntermodal
  | "H3" => .ok .RfDEuropeanChannelTunnelAutomotive
  | "H4" => .ok .RfDEuropeanChannelTunnelContractServices
  | "H5" => .ok .RfDEuropeanChannelTunnelHaulmark
  | "H6" => .ok .RfDEuropeanChannelTunnelJointVenture
  | _ => .error (.InvalidTrainCategory s)

/-- Power-type resolution (lines 969–980): matches on the trimmed string,
the error payload is the untrimmed one. -/
def powerTypeFor (s : String) : Except ScheduleApplyError PowerType :=
  match strTrim s with
  | "" => .ok .NotSpecified
  | "D" => .ok .Diesel
  | "DEM" => .ok .DieselElectricMultipleUnit
  | "DMU" => .ok .DieselMechanicalMultipleUnit
  | "E" => .ok .Electric
  | "ED" => .ok .ElectroDiesel
  | "EML" => .ok .EMUPlusLocomotive
  | "EMU" => .ok .ElectricMultipleUnit
  | "HST" => .ok .HighSpeedTrain
  | _ => .error (.InvalidPowerType s)

/-- Timing-load resolution (lines 981–1041), dependent on the
already-resolved power type.  `u16::parse` is modelled by
`rustParseUInt? _ 65535`. -/
def timingLoadFor (pt : PowerType) (timing_load : String) :
    Except ScheduleApplyError TimingLoad :=
  if pt = .DieselMechanicalMultipleUnit ∨ pt = .DieselElectricMultipleUnit then
    if strTrim timing_load = "" then .ok .NotSpecified
    else if strTrim timing_load = "69" then .ok .Class17201721Or1722
    else if strTrim timing_load = "A" then .ok .Class141To144
    else if strTrim timing_load = "E" then .ok .Class158168170Or175
    else if strTrim timing_load = "N" then .ok .Class1650
    else if strTrim timing_load = "S" then .ok .Class150153155Or156
    else if strTrim timing_load = "T" then .ok .Class1651Or166
    else if strTrim timing_load = "V" then .ok .Class220Or221
    else if strTrim timing_load = "X" then .ok .Class159
    else if strTrim timing_load = "D1" then .ok .DMUPowerCarTrailer
    else if strTrim timing_load = "D2" then .ok .DMU2PowerCarsTrailer
    else if strTrim timing_load = "D3" then .ok .DMUPowerTwin
    else
      match rustParseUInt? (strTrim timing_load) 65535 with
      | some n => .ok (.SpecificClass n)
      | none => .error (.InvalidTimingLoad timing_load)
  else if pt = .ElectricMultipleUnit then
    if strTrim timing_load = "" then .ok .NotSpecified
    else if strTrim timing_load = "AT" then .ok .AcceleratedTimings
    else if strTrim timing_load = "E" then .ok .Class458
    else if strTrim timing_load = "0" then .ok .Class380
    else if strTrim timing_load = "506" then .ok .Class3501110MPH
    else
      match rustParseUInt? (strTrim timing_load) 65535 with
      | some n => .ok (.SpecificClass n)
      | none => .error (.InvalidTimingLoad timing_load)
  else if pt = .Diesel ∨ pt = .Electric ∨ pt = .ElectroDiesel then
    if strTrim timing_load = "" then .ok .NotSpecified
    else if pt = .Electric ∧ strTrim timing_load = "325" then
      .ok .Class325ElectricParcelsUnit
    else
      match rustParseUInt? (strTrim timing_load) 65535 with
      | some n => .ok (.LoadInTonnes n)
      | none => .error (.InvalidTimingLoad timing_load)
  else .ok .NotSpecified

/-- Speed resolution (line 1042): `speed.trim().parse().ok().unwrap_or(0)`
(`u32`). -/
def speedFor (s : String) : Nat := (rustParseUInt? (strTrim s) 4294967295).getD 0

/-- Per-character operating-characteristic table (lines 1043–1084). -/
def opCharTable (c : Char) : Option OperatingCharacteristic :=
  if c = 'B' then some .VacuumBraked
  else if c = 'C' then some .TimedAt100MPH
  else if c = 'D' then some .DOOCoachingStockTrains
  else if c = 'E' then some .ConveysMark4Coaches
  else if c = 'G' then some .GuardRequired
  else if c = 'M' then some .TimedAt110MPH
  else if c = 'P' then some .PushPullTrain
  else if c = 'Q' then some .RunsAsRequired
  else if c = 'R' then some .AirConditionedWithPASystem
  else if c = 'S' then some .SteamHeated
  else if c = 'Y' then some .RunsToTerminalsAsRequired
  else if c = 'Z' then some .MayConveyTrafficToSB1CGauge
  else none

/-- The operating-characteristics loop (lines 1043–1084): spaces are
skipped, recognised codes are pushed in order, anything else errors. -/
def opCharsFor : List Char → Except ScheduleApplyError (List OperatingCharacteristic)
  | [] => .ok []
  | c :: rest =>
    if c = ' ' then opCharsFor rest
    else
      match opCharTable c with
      | some oc => (opCharsFor rest).map (oc :: ·)
      | none => .error (.InvalidOperatingCharacteristic c)

/-- Seating-class resolution (lines 1085–1090). -/
def seatingClassFor (c : Char) : Except ScheduleApplyError SeatingClass :=
  if c = ' ' then .ok .FirstAndStandard
  else if c = 'B' then .ok .FirstAndStandard
  else if c = 'S' then .ok .StandardOnly
  else .error (.InvalidSeatingClass c)

/-- Sleepers resolution (lines 1091–1097). -/
def sleepersFor (c : Char) : Except ScheduleApplyError Sleepers :=
  if c = 'B' then .ok .FirstAndStandard
  else if c = 'F' then .ok .FirstOnly
  else if c = 'S' then .ok .StandardOnly
  else if c = ' ' then .ok .NotSpecified
  else .error (.InvalidSleepers c)

/-- Reservations resolution (lines 1098–1105). -/
def reservationsFor (c : Char) : Except ScheduleApplyError Reservations :=
  if c = 'A' then .ok .Compulsory
  else if c = 'E' then .ok .CompulsoryForBicycles
  else if c = 'R' then .ok .Recommended
  else if c = 'S' then .ok .Possible
  else if c = ' ' then .ok .NotSpecified
  else .error (.InvalidReservations c)

/-- The catering-code loop (lines 1106–1118). -/
def cateringListFor : List Char → Except ScheduleApplyError (List Catering)
  | [] => .ok []
  | c :: rest =>
    if c = 'C' then (cateringListFor rest).map (.BuffetService :: ·)
    else if c = 'F' then (cateringListFor rest).map (.RestaurantCarForFirstClass :: ·)
    else if c = 'H' then (cateringListFor rest).map (.HotFood :: ·)
    else if c = 'M' then (cateringListFor rest).map (.MealForFirstClass :: ·)
    else if c = 'P' then (cateringListFor rest).map (.WheelchairReservations :: ·)
    else if c = 'R' then (cateringListFor rest).map (.Restaurant :: ·)
    else if c = 'T' then (cateringListFor rest).map (.TrolleyService :: ·)
    else if c = ' ' then cateringListFor rest
    else .error (.InvalidCateringCode c)

/-- STP-indicator resolution (lines 1119–1125). -/
def stpIndicatorFor (c : Char) : Except ScheduleApplyError STPIndicator :=
  if c = 'C' then .ok .STPCancellationOfPermanentAssociation
  else if c = 'N' then .ok .NewSTPAssociation
  else if c = 'O' then .ok .STPOverlayOfPermanentAssociation
  else if c = 'P' then .ok .PermanentAssociation
  else .error (.InvalidSTPIndicator c)

/-- Schedule-date resolution (`schedule.rs` lines 877–880):
`NaiveDate::parse_from_str(_, "%y%m%d")` with `InvalidScheduleDate`. -/
def scheduleDateFor (s : String) : Except ScheduleApplyError RDate :=
  match parseYYMMDD? s with
  | some d => .ok d
  | none => .error (.InvalidScheduleDate s)

/-- Mirrors `bs_record_to_schedule` (`schedule.rs` lines 855–1127).  The
Rust function mutates `schedule` field by field and aborts on the first
bad field; every caller discards the partially-written schedule on error,
so the embedding returns the fully-updated schedule on success and the
error otherwise.  Fields not assigned by the source (`atoc_code`,
`subject_to_performance_monitoring`, `journey`, ...) keep their incoming
values; the two loops append to the incoming lists exactly as the Rust
`push` calls do. -/
def bsRecordToSchedule (schedule : Schedule)
    (uid date_runs_from date_runs_to days_run : String)
    (bank_holiday_running train_status : Char)
    (train_category train_identity : String) (portion_id : Char)
    (power_type timing_load speed operating_characteristics : String)
    (seating_class sleepers reservations : Char) (catering_code : String)
    (stp_indicator : Char) : Except ScheduleApplyError Schedule :=
  scheduleDateFor date_runs_from >>= fun runs_from =>
  scheduleDateFor date_runs_to >>= fun runs_to =>
  daysRunFor days_run >>= fun days =>
  trainStatusFor train_status >>= fun ts =>
  trainCategoryFor train_category >>= fun tc =>
  powerTypeFor power_type >>= fun ptv =>
  timingLoadFor ptv timing_load >>= fun tlv =>
  opCharsFor operating_characteristics.data >>= fun ocs =>
  seatingClassFor seating_class >>= fun scv =>
  sleepersFor sleepers >>= fun slv =>
  reservationsFor reservations >>= fun rsv =>
  cateringListFor catering_code.data >>= fun cats =>
  stpIndicatorFor stp_indicator >>= fun stp =>
  pure { schedule with
    train_uid := uid
    runs_from := runs_from
    runs_to := runs_to
    days_run := days
    bank_holiday_running := bankHolidayFor bank_holiday_running
    train_status := ts
    train_category := tc
    headcode := strTrim train_identity
    portion_id := portion_id
    power_type := ptv
    timing_load := tlv
    speed := speedFor speed
    operating_characteristics := schedule.operating_characteristics ++ ocs
    seating_class := scv
    sleepers := slv
    reservations := rsv
    catering := schedule.catering ++ cats
    stp_indicator := stp }

/-! ### `JourneyTime::from_str` and the record application functions -/

/-- The `u8` parse of one two-character time component, with the whole
field string as error payload, as in `JourneyTime::from_str`. -/
def timeComponentFor (component fullField : String) :
    Except ScheduleApplyError Nat :=
  match rustParseUInt? component 255 with
  | some n => .ok n
  | none => .error (.InvalidJourneyTime fullField)

/-- The half-minute flag from the optional fifth character
(`s.chars().nth(4)`) of `JourneyTime::from_str`. -/
def halfFor (s : String) : Except ScheduleApplyError Bool :=
  match s.data.get? 4 with
  | some c =>
    if c = 'H' then .ok true
    else if c = ' ' then .ok false
    else .error (.InvalidJourneyTime s)
  | none => .ok false

/-- Mirrors `impl FromStr for JourneyTime` (`schedule.rs` lines 822–852).
The outer `Option` is `none` exactly when the Rust code would terminate
abnormally: the slices `&s[0..2]` and `&s[2..4]` are out of bounds. -/
def JourneyTime.fromStrTotal (s : String) :
    Option (Except ScheduleApplyError JourneyTime) :=
  match rustSlice? s 0 2 with
  | none => none
  | some hourStr =>
    match rustSlice? s 2 4 with
    | none => none
    | some minStr =>
      some (timeComponentFor hourStr s >>= fun hour =>
        timeComponentFor minStr s >>= fun minute =>
        halfFor s >>= fun half =>
        pure ⟨hour, minute, half⟩)

/-- The optional-time pattern of the `LI` arm:
`if field.trim().is_empty() { None } else { Some(field.parse()?) }`. -/
def optTime (s : String) :
    Option (Except ScheduleApplyError (Option JourneyTime)) :=
  if (strTrim s).data.isEmpty then some (.ok none)
  else
    match JourneyTime.fromStrTotal s with
    | none => none
    | some (.error e) => some (.error e)
    | some (.ok t) => some (.ok (some t))

/-- Mirrors `apply_single_record` (`schedule.rs` lines 168–313).  Returns
`none` exactly when the Rust `assert!` aborts (a BS record routed here that
is neither a delete nor a cancellation); otherwise the updated database and
the `Result`.  Mutations performed before an error (the `tiplocs.clear()`
of a full-update header) persist in the returned database, as in the
source. -/
def applySingleRecord (db : ScheduleDatabase) :
    CIFRecord → Option (ScheduleDatabase × Except ScheduleApplyError Unit)
  | .Header _ date_of_extract time_of_extract _ _ update_indicator _ _ _ =>
    let db1 := if update_indicator = 'F' then { db with tiplocs := [] } else db
    some <|
      match parseDDMMYY? date_of_extract with
      | none => (db1, .error (.InvalidHeaderDateTime date_of_extract))
      | some date =>
        match parseHHMM? time_of_extract with
        | none => (db1, .error (.InvalidHeaderDateTime time_of_extract))
        | some time => ({ db1 with extract_date_time := ⟨date, time⟩ }, .ok ())
  | .TIPLOCInsert tiploc _ _ _ tps_description _ _ three_alpha_code _ =>
    let t := strTrim tiploc
    let tl1 := mapInsert t ⟨t, strTrim three_alpha_code, strTrim tps_description⟩ db.tiplocs
    some ({ db with tiplocs := tl1 }, .ok ())
  | .TIPLOCAmend tiploc _ _ _ tps_description _ _ three_alpha_code _ new_tiploc =>
    let key_map :=
      if (strTrim new_tiploc).data.isEmpty then (strTrim tiploc, db.tiplocs)
      else (strTrim new_tiploc, mapRemove (strTrim tiploc) db.tiplocs)
    let tl1 := mapInsert key_map.1 ⟨key_map.1, strTrim three_alpha_code, strTrim tps_description⟩ key_map.2
    some ({ db with tiplocs := tl1 }, .ok ())
  | .TIPLOCDelete tiploc =>
    some ({ db with tiplocs := mapRemove (strTrim tiploc) db.tiplocs }, .ok ())
  | .BasicSchedule transaction_type train_uid d1 d2 days bhr ts tc ti _ _ _
      pid pt tl sp oc sc sl rsv _ cat _ stp =>
    if transaction_type = 'D' ∨ stp = 'C' then
      some <|
        if transaction_type = 'D' then
          ({ db with schedules := mapRemove train_uid db.schedules }, .ok ())
        else
          match bsRecordToSchedule Schedule.new train_uid d1 d2 days bhr ts tc
              ti pid pt tl sp oc sc sl rsv cat stp with
          | .error e => (db, .error e)
          | .ok sch =>
            ({ db with schedules :=
              mapAndModify train_uid (fun v => v ++ [sch]) db.schedules },
              .ok ())
    else none
  | _ => some (db, .ok ())

/-- One record of the bundle walk inside `apply_record_bundle`
(`schedule.rs` lines 323–474), as a transformer of the bundle-local
schedule.  `none` marks a journey-time slice abort; errors abort the
bundle.  (The BS arm's `contains_key` check only drives a log line and has
no semantic effect.) -/
def bundleStep (schedule : Schedule) :
    CIFRecord → Option (Except ScheduleApplyError Schedule)
  | .BasicSchedule _ train_uid d1 d2 days bhr ts tc ti _ _ _ pid pt tl sp oc
      sc sl rsv _ cat _ stp =>
    some (bsRecordToSchedule schedule (strTrim train_uid) d1 d2 days bhr ts tc
      ti pid pt tl sp oc sc sl rsv cat stp)
  | .BasicScheduleExtended _ _ atoc_code applicable_timetable_code =>
    some (.ok { schedule with
      atoc_code := strTrim atoc_code
      subject_to_performance_monitoring := applicable_timetable_code = 'Y' })
  | .LocationOrigin location sdt pdt platform line _ _ activity _ =>
    (match JourneyTime.fromStrTotal sdt with
    | none => none
    | some (.error e) => some (.error e)
    | some (.ok dep) =>
      match JourneyTime.fromStrTotal pdt with
      | none => none
      | some (.error e) => some (.error e)
      | some (.ok pdep) =>
        some (.ok { schedule with journey := schedule.journey ++
          [⟨strTrim location, none, some dep, none, none, some pdep,
            strTrim platform, strTrim line, strTrim activity⟩] }))
  | .LocationIntermediate location sat sdt spass pat pdt platform line _
      activity _ _ _ =>
    (match optTime sat with
    | none => none
    | some (.error e) => some (.error e)
    | some (.ok arr) =>
      match optTime sdt with
      | none => none
      | some (.error e) => some (.error e)
      | some (.ok dep) =>
        match optTime spass with
        | none => none
        | some (.error e) => some (.error e)
        | some (.ok pass) =>
          match optTime pat with
          | none => none
          | some (.error e) => some (.error e)
          | some (.ok parr) =>
            match optTime pdt with
            | none => none
            | some (.error e) => some (.error e)
            | some (.ok pdep) =>
              some (.ok { schedule with journey := schedule.journey ++
                [⟨strTrim location, arr, dep, pass, parr, pdep,
                  strTrim platform, strTrim line, strTrim activity⟩] }))
  | .LocationTerminate location sat pat platform _ activity =>
    (match JourneyTime.fromStrTotal sat with
    | none => none
    | some (.error e) => some (.error e)
    | some (.ok arr) =>
      match JourneyTime.fromStrTotal pat with
      | none => none
      | some (.error e) => some (.error e)
      | some (.ok parr) =>
        some (.ok { schedule with journey := schedule.journey ++
          [⟨strTrim location, some arr, none, none, some parr, none,
            strTrim platform, "", strTrim activity⟩] }))
  | _ => some (.ok schedule)

/-- The iteration of `apply_record_bundle` over its records, followed by
the final map update
`entry(uid).and_modify(|v| v.push(schedule)).or_insert(vec![])`
(`schedule.rs` lines 476–480).  Errors leave the database untouched, as in
the source (`?` propagates before the map update). -/
def applyBundleGo (db : ScheduleDatabase) (schedule : Schedule) :
    List CIFRecord → Option (ScheduleDatabase × Except ScheduleApplyError Unit)
  | [] =>
    let m := mapAndModifyOrInsert schedule.train_uid (fun v => v ++ [schedule]) [] db.schedules
    some ({ db with schedules := m }, .ok ())
  | r :: rest =>
    match bundleStep schedule r with
    | none => none
    | some (.error e) => some (db, .error e)
    | some (.ok schedule') => applyBundleGo db schedule' rest

/-- Mirrors `apply_record_bundle` (`schedule.rs` lines 317–481). -/
def applyRecordBundle (db : ScheduleDatabase) (bundle : List CIFRecord) :
    Option (ScheduleDatabase × Except ScheduleApplyError Unit) :=
  applyBundleGo db Schedule.new bundle

/-! ## Concrete inputs used by counterexamples and failing-input theorems -/

/-- An 80-column row: the given tag followed by space padding. -/
def paddedRow (tag : List Char) : List Char := tag ++ List.replicate (80 - tag.length) ' '

/-- Input stream: an `AA` (association) row, then the `ZZ` trailer, each
with its line-feed terminator. -/
def aaInput : List Char :=
  paddedRow ['A', 'A'] ++ '\n' :: (paddedRow ['Z', 'Z'] ++ ['\n'])

/-- Input stream: a single row with the unknown tag `QQ`. -/
def qqInput : List Char := paddedRow ['Q', 'Q'] ++ ['\n']

/-- Input stream: a single `HD` row whose padding leaves every date field
blank, so the header parser fails on `date_of_extract`. -/
def hdBadInput : List Char := paddedRow ['H', 'D'] ++ ['\n']

/-- A well-formed `BS` new-schedule record for train UID `C11004`. -/
def bsNewC11004 : CIFRecord :=
  .BasicSchedule 'N' "C11004" "240601" "240601" "1000000" ' ' 'P' "OO" "2A04"
    "    " ' ' "        " ' ' "D  " "    " "100" "      " ' ' ' ' ' ' ' '
    "    " "    " 'P'

/-- A well-formed `LO` origin record. -/
def loWaterloo : CIFRecord :=
  .LocationOrigin "WATRLMN " "1000 " "1000" "1  " "M  " "  " "  "
    "TB          " "  "

/-- A well-formed `LT` terminating record. -/
def ltClapham : CIFRecord :=
  .LocationTerminate "CLPHMJ1 " "1010H" "1010" "5  " "   " "TF          "

/-- The schedule bundle `BS`–`LO`–`LT` for `C11004`. -/
def bundleC11004 : List CIFRecord := [bsNewC11004, loWaterloo, ltClapham]

/-- Discriminator for the `AtLine` error constructor. -/
def CIFParseError.isAtLine : CIFParseError → Bool
  | .AtLine _ _ => true
  | _ => false

/-- The 80-column row at 1-based line `n` of an input stream (81 bytes per
line: 80 columns and the terminator), shaped as in `parseCIFLoop`. -/
def rowAt (input : List Char) (n : Nat) : List Char :=
  ((input.drop (81 * (n - 1))).take 81).take 80

/-- The corrected shape of a `parse_cif` error: a bare `Read`, a bare
`InvalidRecordType`, or `AtLine n inner` where `n` is the 1-based line
number of the offending row and `inner` is exactly the error produced by
that row's record parser.  Bare record-level errors never escape. -/
def wellFormedParseError (input : List Char) : CIFParseError → Prop
  | .Read => True
  | .InvalidRecordType _ => True
  | .AtLine n inner =>
      1 ≤ n ∧
      parseRowRecord? (String.mk ((rowAt input n).take 2)) (rowAt input n) =
        some (.error inner)
  | _ => False

/-- `'1'` / `'0'` for a day-of-week flag. -/
def dayBitChar (b : Bool) : Char := if b then '1' else '0'

/-- A seven-character days-run string from seven day flags, Monday first. -/
def mkDaysRunStr (b0 b1 b2 b3 b4 b5 b6 : Bool) : String :=
  String.mk [dayBitChar b0, dayBitChar b1, dayBitChar b2, dayBitChar b3,
    dayBitChar b4, dayBitChar b5, dayBitChar b6]

/-- A database holding an (empty) schedule list for key `C11004`. -/
def dbWithC11004 : ScheduleDatabase :=
  { ScheduleDatabase.new with schedules := [("C11004", [])] }

/-- A database holding one TIPLOC, to observe the full-update clear. -/
def dbWithTiploc : ScheduleDatabase :=
  { ScheduleDatabase.new with tiplocs := [("AAA", ⟨"AAA", "", ""⟩)] }

/-- The schedule built by `bs_record_to_schedule` from the cancellation
variant of the `C11004` BS fields (`stp_indicator = 'C'`). -/
def schCancelC11004 : Schedule where
  train_uid := "C11004"
  runs_from := ⟨2024, 6, 1⟩
  runs_to := ⟨2024, 6, 1⟩
  days_run := ⟨64⟩
  bank_holiday_running := .RunsNormally
  atoc_code := ""
  subject_to_performance_monitoring := false
  train_status := .PassengerAndParcels
  train_category := .OrdinaryPassenger
  headcode := "2A04"
  portion_id := ' '
  power_type := .Diesel
  timing_load := .NotSpecified
  speed := 100
  operating_characteristics := []
  seating_class := .FirstAndStandard
  sleepers := .NotSpecified
  reservations := .NotSpecified
  catering := []
  stp_indicator := .STPCancellationOfPermanentAssociation
  journey := []

/-! ## Helper lemmas -/

theorem exceptBind_ok {ε α β : Type} {e : Except ε α} {k : α → Except ε β}
    {v : β} (h : e >>= k = .ok v) : ∃ a, e = .ok a ∧ k a = .ok v := by
  cases e with
  | error err => simp [Bind.bind, Except.bind] at h
  | ok a => exact ⟨a, rfl, by simpa [Bind.bind, Except.bind] using h⟩

/-- `bs_record_to_schedule` never touches the journey, and writes the given
uid into `train_uid`. -/
theorem bsRecordToSchedule_journey (schedule : Schedule)
    (uid d1 d2 days : String) (bhr ts : Char) (tc ti : String) (pid : Char)
    (pt tl sp oc : String) (sc sl rsv : Char) (cat : String) (stp : Char)
    (sch : Schedule)
    (h : bsRecordToSchedule schedule uid d1 d2 days bhr ts tc ti pid pt tl sp
      oc sc sl rsv cat stp = .ok sch) :
    sch.journey = schedule.journey ∧ sch.train_uid = uid := by
  unfold bsRecordToSchedule at h
  obtain ⟨a1, -, h⟩ := exceptBind_ok h
  obtain ⟨a2, -, h⟩ := exceptBind_ok h
  obtain ⟨a3, -, h⟩ := exceptBind_ok h
  obtain ⟨a4, -, h⟩ := exceptBind_ok h
  obtain ⟨a5, -, h⟩ := exceptBind_ok h
  obtain ⟨a6, -, h⟩ := exceptBind_ok h
  obtain ⟨a7, -, h⟩ := exceptBind_ok h
  obtain ⟨a8, -, h⟩ := exceptBind_ok h
  obtain ⟨a9, -, h⟩ := exceptBind_ok h
  obtain ⟨a10, -, h⟩ := exceptBind_ok h
  obtain ⟨a11, -, h⟩ := exceptBind_ok h
  obtain ⟨a12, -, h⟩ := exceptBind_ok h
  obtain ⟨a13, -, h⟩ := exceptBind_ok h
  simp only [Pure.pure, Except.pure, Except.ok.injEq] at h
  subst h
  exact ⟨rfl, rfl⟩

theorem mapFind?_mapRemove_ne {V : Type} (k k' : String)
    (m : List (String × V)) (h : k' ≠ k) :
    mapFind? k' (mapRemove k m) = mapFind? k' m := by
  induction m with
  | nil => rfl
  | cons p rest ih =>
    obtain ⟨pk, pv⟩ := p
    by_cases hk : pk = k
    · subst hk
      have hne : ¬ (pk = k') := fun hh => h hh.symm
      simp [mapRemove, mapFind?, hne]
    · by_cases hk' : pk = k'
      · simp [mapRemove, mapFind?, hk, hk', h]
      · simp [mapRemove, mapFind?, hk, hk', ih]

theorem mapFind?_mapAndModify_ne {V : Type} (k k' : String) (f : V → V)
    (m : List (String × V)) (h : k' ≠ k) :
    mapFind? k' (mapAndModify k f m) = mapFind? k' m := by
  induction m with
  | nil => rfl
  | cons p rest ih =>
    obtain ⟨pk, pv⟩ := p
    by_cases hk : pk = k
    · subst hk
      have hne : ¬ (pk = k') := fun hh => h hh.symm
      simp [mapAndModify, mapFind?, hne]
    · by_cases hk' : pk = k'
      · simp [mapAndModify, mapFind?, hk, hk', h]
      · simp [mapAndModify, mapFind?, hk, hk', ih]

/-- `entry(k).and_modify(f)` on a map without key `k` changes nothing. -/
theorem mapAndModify_absent {V : Type} (k : String) (f : V → V)
    (m : List (String × V)) (h : mapFind? k m = none) :
    mapAndModify k f m = m := by
  induction m with
  | nil => rfl
  | cons p rest ih =>
    obtain ⟨pk, pv⟩ := p
    simp only [mapFind?] at h
    by_cases hk : pk = k
    · rw [if_pos hk] at h; exact absurd h (by simp)
    · rw [if_neg hk] at h
      simp only [mapAndModify, if_neg hk]
      rw [ih h]
/-! ## Claim theorems -/

/-- Claim C7: for every BS record with `stp_indicator = 'C'` and a
transaction type other than `'D'` applied as a singleton, the schedule
built from the BS fields alone has an empty journey and is appended to
`schedules[train_uid]` via `entry(..).and_modify(..)`; this append only
affects an existing key, and when the key is absent the schedules map is
unchanged. -/
theorem c7_cancellation_append (db : ScheduleDatabase) (tt : Char)
    (train_uid d1 d2 days : String) (bhr ts : Char) (tc ti hc : String)
    (ci : Char) (tsc : String) (pid : Char) (pt tl sp oc : String)
    (sc sl rsv cni : Char) (cat sb : String) (sch : Schedule)
    (htt : tt ≠ 'D')
    (hok : bsRecordToSchedule Schedule.new train_uid d1 d2 days bhr ts tc ti
      pid pt tl sp oc sc sl rsv cat 'C' = .ok sch) :
    applySingleRecord db (.BasicSchedule tt train_uid d1 d2 days bhr ts tc ti
        hc ci tsc pid pt tl sp oc sc sl rsv cni cat sb 'C') =
      some ({ db with schedules := mapAndModify train_uid (fun v => v ++ [sch]) db.schedules }, .ok ()) ∧
    sch.journey = [] ∧
    (mapFind? train_uid db.schedules = none →
      mapAndModify train_uid (fun v => v ++ [sch]) db.schedules = db.schedules) := by
  obtain ⟨hj, -⟩ := bsRecordToSchedule_journey _ _ _ _ _ _ _ _ _ _ _ _ _ _ _ _ _ _ _ _ hok
  refine ⟨?_, ?_, ?_⟩
  · simp [applySingleRecord, htt, hok]
  · simpa [Schedule.new] using hj
  · intro habs
    exact mapAndModify_absent _ _ _ habs

/-- Claim C7 witness: the cancellation variant of the `C11004` BS record,
applied to a database whose schedules map already holds key `C11004`. -/
theorem c7_cancellation_append_witness :
    applySingleRecord dbWithC11004 (.BasicSchedule 'N' "C11004" "240601"
        "240601" "1000000" ' ' 'P' "OO" "2A04" "    " ' ' "        " ' '
        "D  " "    " "100" "      " ' ' ' ' ' ' ' ' "    " "    " 'C') =
      some ({ dbWithC11004 with schedules := mapAndModify "C11004" (fun v => v ++ [schCancelC11004]) dbWithC11004.schedules }, .ok ()) ∧
    schCancelC11004.journey = [] ∧
    (mapFind? "C11004" dbWithC11004.schedules = none →
      mapAndModify "C11004" (fun v => v ++ [schCancelC11004]) dbWithC11004.schedules = dbWithC11004.schedules) :=
  c7_cancellation_append dbWithC11004 'N' "C11004" "240601" "240601"
    "1000000" ' ' 'P' "OO" "2A04" "    " ' ' "        " ' ' "D  " "    "
    "100" "      " ' ' ' ' ' ' ' ' "    " "    " schCancelC11004
    (by decide) (by decide)

/-- Claim C8: a Header singleton with `update_indicator = 'F'` whose
extract date or time fails to parse reports `InvalidHeaderDateTime`, but
the tiplocs map has already been cleared before the parse was attempted:
the returned database is the input database with `tiplocs` emptied (and
`extract_date_time`, `schedules` untouched) despite the error. -/
theorem c8_header_partial_mutation (db : ScheduleDatabase)
    (fmi doe toe cfr lfr : String) (v : Char) (usd ued : String)
    (hbad : parseDDMMYY? doe = none ∨ parseHHMM? toe = none) :
    ∃ s, applySingleRecord db (.Header fmi doe toe cfr lfr 'F' v usd ued) =
      some ({ db with tiplocs := [] }, .error (.InvalidHeaderDateTime s)) := by
  cases hdd : parseDDMMYY? doe with
  | none =>
    refine ⟨doe, ?_⟩
    simp [applySingleRecord, hdd]
  | some d =>
    have htm : parseHHMM? toe = none := by
      rcases hbad with h1 | h2
      · rw [hdd] at h1; exact absurd h1 (by simp)
      · exact h2
    refine ⟨toe, ?_⟩
    simp [applySingleRecord, hdd, htm]

/-- Claim C8 witness: a full-update header with a garbage extract date,
applied to a database holding one TIPLOC. -/
theorem c8_header_partial_mutation_witness :
    ∃ s, applySingleRecord dbWithTiploc (.Header "" "XXXXXX" "0000" "" "" 'F'
        '1' "" "") =
      some ({ dbWithTiploc with tiplocs := [] }, .error (.InvalidHeaderDateTime s)) :=
  c8_header_partial_mutation dbWithTiploc "" "XXXXXX" "0000" "" "" '1' "" ""
    (Or.inl (by decide))

/-- Claim C9: BS delete and cancellation singletons key the schedules map
by the untrimmed fixed-width `train_uid`, while bundles key it by the
trimmed uid; so when `train_uid` has trailing spaces, neither the delete
nor the cancellation singleton changes the entry stored under the trimmed
uid. -/
theorem c9_untrimmed_uid (db : ScheduleDatabase) (uid : String) (tt : Char)
    (huid : strTrim uid ≠ uid) (htt : tt ≠ 'D')
    (d1 d2 days : String) (bhr ts : Char) (tc ti hc : String) (ci : Char)
    (tsc : String) (pid : Char) (pt tl sp oc : String) (sc sl rsv cni : Char)
    (cat sb : String) (stp : Char) :
    (applySingleRecord db (.BasicSchedule 'D' uid d1 d2 days bhr ts tc ti hc
        ci tsc pid pt tl sp oc sc sl rsv cni cat sb stp)).map
        (fun r => mapFind? (strTrim uid) r.1.schedules) =
      some (mapFind? (strTrim uid) db.schedules) ∧
    (applySingleRecord db (.BasicSchedule tt uid d1 d2 days bhr ts tc ti hc
        ci tsc pid pt tl sp oc sc sl rsv cni cat sb 'C')).map
        (fun r => mapFind? (strTrim uid) r.1.schedules) =
      some (mapFind? (strTrim uid) db.schedules) := by
  constructor
  · have h1 : mapFind? (strTrim uid) (mapRemove uid db.schedules) =
        mapFind? (strTrim uid) db.schedules :=
      mapFind?_mapRemove_ne uid (strTrim uid) db.schedules huid
    simp [applySingleRecord, h1]
  · cases hbs : bsRecordToSchedule Schedule.new uid d1 d2 days bhr ts tc ti
        pid pt tl sp oc sc sl rsv cat 'C' with
    | error e => simp [applySingleRecord, htt, hbs]
    | ok sch =>
      have h2 : mapFind? (strTrim uid)
            (mapAndModify uid (fun v => v ++ [sch]) db.schedules) =
          mapFind? (strTrim uid) db.schedules :=
        mapFind?_mapAndModify_ne uid (strTrim uid) _ db.schedules huid
      simp [applySingleRecord, htt, hbs, h2]

/-- Claim C9 witness: uid `"C11004 "` (trailing space) against the
database keyed by the trimmed `"C11004"`. -/
theorem c9_untrimmed_uid_witness :
    (applySingleRecord dbWithC11004 (.BasicSchedule 'D' "C11004 " "240601"
        "240601" "1000000" ' ' 'P' "OO" "2A04" "    " ' ' "        " ' '
        "D  " "    " "100" "      " ' ' ' ' ' ' ' ' "    " "    " 'P')).map
        (fun r => mapFind? (strTrim "C11004 ") r.1.schedules) =
      some (mapFind? (strTrim "C11004 ") dbWithC11004.schedules) ∧
    (applySingleRecord dbWithC11004 (.BasicSchedule 'N' "C11004 " "240601"
        "240601" "1000000" ' ' 'P' "OO" "2A04" "    " ' ' "        " ' '
        "D  " "    " "100" "      " ' ' ' ' ' ' ' ' "    " "    " 'C')).map
        (fun r => mapFind? (strTrim "C11004 ") r.1.schedules) =
      some (mapFind? (strTrim "C11004 ") dbWithC11004.schedules) :=
  c9_untrimmed_uid dbWithC11004 "C11004 " 'N' (by decide) (by decide)
    "240601" "240601" "1000000" ' ' 'P' "OO" "2A04" "    " ' ' "        "
    ' ' "D  " "    " "100" "      " ' ' ' ' ' ' ' ' "    " "    " 'P'

/-- Claim C1 (code bug): `parse_cif` does not round-trip the record tag.
For the 81-byte `AA` row of `aaInput`, the record appended to the `CIFFile`
is `Trailer`, whose kind string is `"ZZ"`, not the row's first two
characters `"AA"` (the same happens for `BS`, `BX`, `LO`, `LI`, `CR` and
`LT` rows, all mapped to `Trailer` by `parser.rs`). -/
theorem c1_kind_roundtrip_bug :
    String.mk (aaInput.take 2) = "AA" ∧
    (parseCIF aaInput).map (fun f => f.records.map CIFRecord.kind) =
      .ok ["ZZ", "ZZ"] :=
  ⟨by decide, by decide⟩

/-- Claim C2 (code bug): a schedule bundle applied to a database with no
entry for its uid is processed without error, yet the resulting entry for
`"C11004"` is the empty list — the schedule built from the bundle was
dropped by `or_insert(vec![])` instead of being stored. -/
theorem c2_bundle_insert_bug :
    mapFind? "C11004" ScheduleDatabase.new.schedules = none ∧
    (applyRecordBundle ScheduleDatabase.new bundleC11004).map
      (fun r => (mapFind? "C11004" r.1.schedules, r.2)) =
      some (some [], .ok ()) :=
  ⟨by decide, by decide⟩

/-- An all-decimal-digit list of length at most two denotes at most 99. -/
theorem digitsToNat?_le_99 (l : List Char) (n : Nat) (hl : l.length ≤ 2)
    (h : digitsToNat? l = some n) : n ≤ 99 := by
  match l, hl with
  | [], _ => simp [digitsToNat?] at h
  | [a], _ =>
    rw [digitsToNat?, if_neg (by simp)] at h
    by_cases hd : ([a].all isDig) = true
    · rw [if_pos hd] at h
      simp only [List.all_cons, List.all_nil, Bool.and_true] at hd
      simp only [List.foldl, Option.some.injEq] at h
      have : digVal a ≤ 9 := by
        simp only [isDig, Bool.and_eq_true, decide_eq_true_eq] at hd
        simp only [digVal]
        omega
      omega
    · rw [if_neg hd] at h; exact absurd h (by simp)
  | [a, b], _ =>
    rw [digitsToNat?, if_neg (by simp)] at h
    by_cases hd : ([a, b].all isDig) = true
    · rw [if_pos hd] at h
      simp only [List.all_cons, List.all_nil, Bool.and_true,
        Bool.and_eq_true] at hd
      simp only [List.foldl, Option.some.injEq] at h
      have ha : digVal a ≤ 9 := by
        have := hd.1
        simp only [isDig, Bool.and_eq_true, decide_eq_true_eq] at this
        simp only [digVal]
        omega
      have hb : digVal b ≤ 9 := by
        have := hd.2
        simp only [isDig, Bool.and_eq_true, decide_eq_true_eq] at this
        simp only [digVal]
        omega
      omega
    · rw [if_neg hd] at h; exact absurd h (by simp)
  | a :: b :: c :: rest, hl => simp at hl

theorem stripPlus_length (l : List Char) : (stripPlus l).length ≤ l.length := by
  unfold stripPlus
  split <;> simp

/-- A `u8` parse of a string of at most two characters is at most 99. -/
theorem rustParseUInt?_le_99 (s : String) (n : Nat) (hl : s.data.length ≤ 2)
    (h : rustParseUInt? s 255 = some n) : n ≤ 99 := by
  unfold rustParseUInt? at h
  cases hd : digitsToNat? (stripPlus s.data) with
  | none => rw [hd] at h; exact absurd h (by simp)
  | some m =>
    rw [hd] at h
    dsimp only at h
    by_cases hle : m ≤ 255
    · rw [if_pos hle] at h
      have hmn : m = n := by simpa using h
      subst hmn
      exact digitsToNat?_le_99 _ _ (le_trans (stripPlus_length _) hl) hd
    · rw [if_neg hle] at h
      exact absurd h (by simp)

/-- Claim C4 counterexample: `JourneyTime::from_str("9999")` succeeds with
hour 99, which violates the claimed invariant `hour ≤ 23`. -/
theorem c4_counterexample :
    JourneyTime.fromStrTotal "9999" = some (.ok ⟨99, 99, false⟩) ∧
    ¬ (99 ≤ 23 ∧ 99 ≤ 59) :=
  ⟨by decide, by decide⟩

/-- Claim C4 as amended: `JourneyTime::from_str` performs no wall-clock
range check; each component is only bounded by its two-character width, so
every successfully parsed time satisfies `hour ≤ 99` and `minute ≤ 99`
(not `hour ≤ 23` / `minute ≤ 59`). -/
theorem c4_amended_bounds (s : String) (jt : JourneyTime)
    (h : JourneyTime.fromStrTotal s = some (.ok jt)) :
    jt.hour ≤ 99 ∧ jt.minute ≤ 99 := by
  unfold JourneyTime.fromStrTotal at h
  cases h0 : rustSlice? s 0 2 with
  | none => rw [h0] at h; exact absurd h (by simp)
  | some hourStr =>
    rw [h0] at h
    cases h2 : rustSlice? s 2 4 with
    | none => rw [h2] at h; exact absurd h (by simp)
    | some minStr =>
      rw [h2] at h
      have hb := Option.some.inj h
      obtain ⟨hour, hh, hb⟩ := exceptBind_ok hb
      obtain ⟨minute, hm, hb⟩ := exceptBind_ok hb
      obtain ⟨half, -, hb⟩ := exceptBind_ok hb
      simp only [Pure.pure, Except.pure, Except.ok.injEq] at hb
      subst hb
      have hlh : hourStr.data.length ≤ 2 := by
        unfold rustSlice? at h0
        split at h0
        · have := Option.some.inj h0
          subst this
          simp
        · exact absurd h0 (by simp)
      have hlm : minStr.data.length ≤ 2 := by
        unfold rustSlice? at h2
        split at h2
        · have := Option.some.inj h2
          subst this
          simp
        · exact absurd h2 (by simp)
      constructor
      · unfold timeComponentFor at hh
        cases hph : rustParseUInt? hourStr 255 with
        | none => rw [hph] at hh; exact absurd hh (by simp)
        | some m =>
          rw [hph] at hh
          have : m = hour := by simpa using hh
          subst this
          exact rustParseUInt?_le_99 _ _ hlh hph
      · unfold timeComponentFor at hm
        cases hpm : rustParseUInt? minStr 255 with
        | none => rw [hpm] at hm; exact absurd hm (by simp)
        | some m =>
          rw [hpm] at hm
          have : m = minute := by simpa using hm
          subst this
          exact rustParseUInt?_le_99 _ _ hlm hpm

/-- Claim C4 amended witness: `"1000 "` parses to 10:00 and satisfies the
amended bounds. -/
theorem c4_amended_bounds_witness :
    JourneyTime.fromStrTotal "1000 " = some (.ok ⟨10, 0, false⟩) ∧
    ((10 : Nat) ≤ 99 ∧ (0 : Nat) ≤ 99) :=
  ⟨by decide, c4_amended_bounds "1000 " ⟨10, 0, false⟩ (by decide)⟩

/-- Claim C10: `JourneyTime::from_str` is partial — it aborts on an
out-of-bounds string slice (the `none` case of the embedding) exactly for
inputs shorter than 4 characters (ASCII bytes), and returns a `Result`
(`some` case) exactly for inputs of length at least 4. -/
theorem c10_fromstr_domain (s : String) :
    JourneyTime.fromStrTotal s = none ↔ s.length < 4 := by
  have hlen : s.length = s.data.length := rfl
  unfold JourneyTime.fromStrTotal rustSlice?
  by_cases h4 : 4 ≤ s.data.length
  · rw [if_pos ⟨by omega, by omega⟩, if_pos ⟨by omega, h4⟩]
    simp
    omega
  · by_cases h2 : 2 ≤ s.data.length
    · rw [if_pos ⟨by omega, h2⟩, if_neg (by omega)]
      simp
      omega
    · rw [if_neg (by omega)]
      simp
      omega

/-- Claim C10 witness: the three-character string `"101"` is in the
aborting region. -/
theorem c10_fromstr_domain_witness : JourneyTime.fromStrTotal "101" = none :=
  (c10_fromstr_domain "101").mpr (by decide)

/-- Claim C6: `days_run` is parsed as a 7-bit binary number with Monday at
bit 6 (the first character, weight 64) down to Sunday at bit 0 (the last
character, weight 1); `"1000000"` gives exactly the Monday flag and
`"0000001"` exactly the Sunday flag; a string the binary parser rejects
gives `InvalidDaysRun`. -/
theorem c6_days_run :
    (∀ b0 b1 b2 b3 b4 b5 b6 : Bool,
        daysRunFor (mkDaysRunStr b0 b1 b2 b3 b4 b5 b6) =
          .ok ⟨64 * b0.toNat + 32 * b1.toNat + 16 * b2.toNat + 8 * b3.toNat +
            4 * b4.toNat + 2 * b5.toNat + b6.toNat⟩) ∧
    daysRunFor "1000000" = .ok DaysRun.MONDAY ∧
    daysRunFor "0000001" = .ok DaysRun.SUNDAY ∧
    (∀ s, rustParseRadix2? s 255 = none →
        daysRunFor s = .error (.InvalidDaysRun s)) := by
  refine ⟨?_, by decide, by decide, ?_⟩
  · intro b0 b1 b2 b3 b4 b5 b6
    cases b0 <;> cases b1 <;> cases b2 <;> cases b3 <;> cases b4 <;>
      cases b5 <;> cases b6 <;> decide
  · intro s hs
    unfold daysRunFor
    rw [hs]

/-- Claim C6 witness: a concrete all-days mask and a concrete rejected
string. -/
theorem c6_days_run_witness :
    daysRunFor (mkDaysRunStr true false true false false false true) =
      .ok ⟨64 * 1 + 32 * 0 + 16 * 1 + 8 * 0 + 4 * 0 + 2 * 0 + 1⟩ ∧
    daysRunFor "XXXXXXX" = .error (.InvalidDaysRun "XXXXXXX") :=
  ⟨c6_days_run.1 true false true false false false true,
   c6_days_run.2.2.2 "XXXXXXX" (by decide)⟩

/-- Claim C5: the timing load is resolved depending on the already-resolved
power type.  (1) For DMU/DEM an unrecognised but numeric trimmed value
yields `SpecificClass(n)`; (2) likewise for EMU; (3) for D, E or ED a
numeric value yields `LoadInTonnes(n)` except (4) power type Electric with
trimmed value `"325"`, which yields `Class325ElectricParcelsUnit`;
(5) a blank value yields `NotSpecified` for every power type; (6) every
other power type yields `NotSpecified` regardless of the string; and
(7) a non-blank, non-numeric, unrecognised value yields
`InvalidTimingLoad`. -/
theorem c5_timing_load :
    (∀ (pt : PowerType) (s : String) (n : Nat),
        pt = .DieselMechanicalMultipleUnit ∨ pt = .DieselElectricMultipleUnit →
        strTrim s ∉ (["", "69", "A", "E", "N", "S", "T", "V", "X", "D1", "D2", "D3"] : List String) →
        rustParseUInt? (strTrim s) 65535 = some n →
        timingLoadFor pt s = .ok (.SpecificClass n)) ∧
    (∀ (s : String) (n : Nat),
        strTrim s ∉ (["", "AT", "E", "0", "506"] : List String) →
        rustParseUInt? (strTrim s) 65535 = some n →
        timingLoadFor .ElectricMultipleUnit s = .ok (.SpecificClass n)) ∧
    (∀ (pt : PowerType) (s : String) (n : Nat),
        pt = .Diesel ∨ pt = .Electric ∨ pt = .ElectroDiesel →
        strTrim s ≠ "" →
        ¬ (pt = .Electric ∧ strTrim s = "325") →
        rustParseUInt? (strTrim s) 65535 = some n →
        timingLoadFor pt s = .ok (.LoadInTonnes n)) ∧
    (∀ s : String, strTrim s = "325" →
        timingLoadFor .Electric s = .ok .Class325ElectricParcelsUnit) ∧
    (∀ (pt : PowerType) (s : String), strTrim s = "" →
        timingLoadFor pt s = .ok .NotSpecified) ∧
    (∀ (pt : PowerType) (s : String),
        pt = .NotSpecified ∨ pt = .EMUPlusLocomotive ∨ pt = .HighSpeedTrain →
        timingLoadFor pt s = .ok .NotSpecified) ∧
    (∀ (pt : PowerType) (s : String),
        pt ∈ ([.DieselMechanicalMultipleUnit, .DieselElectricMultipleUnit,
          .ElectricMultipleUnit, .Diesel, .Electric, .ElectroDiesel] : List PowerType) →
        strTrim s ≠ "" →
        strTrim s ∉ (["A", "E", "N", "S", "T", "V", "X", "D1", "D2", "D3", "AT"] : List String) →
        rustParseUInt? (strTrim s) 65535 = none →
        timingLoadFor pt s = .error (.InvalidTimingLoad s)) := by
  refine ⟨?_, ?_, ?_, ?_, ?_, ?_, ?_⟩
  · intro pt s n hpt htab hnum
    simp only [List.mem_cons, List.not_mem_nil, or_false, not_or] at htab
    obtain ⟨h0, h1, h2, h3, h4, h5, h6, h7, h8, h9, h10, h11⟩ := htab
    unfold timingLoadFor
    rw [if_pos hpt]
    simp [h0, h1, h2, h3, h4, h5, h6, h7, h8, h9, h10, h11, hnum]
  · intro s n htab hnum
    simp only [List.mem_cons, List.not_mem_nil, or_false, not_or] at htab
    obtain ⟨h0, h1, h2, h3, h4⟩ := htab
    simp [timingLoadFor, h0, h1, h2, h3, h4, hnum]
  · intro pt s n hpt hne h325 hnum
    have hd : ¬ (pt = PowerType.DieselMechanicalMultipleUnit ∨
        pt = PowerType.DieselElectricMultipleUnit) := by
      rcases hpt with h | h | h <;> subst h <;> simp
    have he : ¬ (pt = PowerType.ElectricMultipleUnit) := by
      rcases hpt with h | h | h <;> subst h <;> simp
    unfold timingLoadFor
    rw [if_neg hd, if_neg he, if_pos hpt, if_neg hne, if_neg h325, hnum]
  · intro s h325
    unfold timingLoadFor
    have hne : ¬ (strTrim s = "") := by
      intro hh; rw [h325] at hh; exact absurd hh (by decide)
    rw [if_neg (by simp), if_neg (by simp), if_pos (Or.inr (Or.inl rfl)),
      if_neg hne, if_pos ⟨rfl, h325⟩]
  · intro pt s hblank
    cases pt <;> simp [timingLoadFor, hblank]
  · intro pt s hpt
    rcases hpt with h | h | h <;> subst h <;> simp [timingLoadFor]
  · intro pt s hmem hne htab hnone
    simp only [List.mem_cons, List.not_mem_nil, or_false, not_or] at htab
    obtain ⟨hA, hE, hN, hS, hT, hV, hX, hD1, hD2, hD3, hAT⟩ := htab
    have h69 : strTrim s ≠ "69" := by
      intro he; rw [he] at hnone; exact absurd hnone (by decide)
    have h0 : strTrim s ≠ "0" := by
      intro he; rw [he] at hnone; exact absurd hnone (by decide)
    have h506 : strTrim s ≠ "506" := by
      intro he; rw [he] at hnone; exact absurd hnone (by decide)
    have h325 : strTrim s ≠ "325" := by
      intro he; rw [he] at hnone; exact absurd hnone (by decide)
    simp only [List.mem_cons, List.not_mem_nil, or_false] at hmem
    rcases hmem with h | h | h | h | h | h <;> subst h <;>
      simp [timingLoadFor, hne, h69, hA, hE, hN, hS, hT, hV, hX, hD1, hD2,
        hD3, hAT, h0, h506, h325, hnone]

/-- Claim C5 witness: one concrete instance of each clause of the
power-type-dependent timing-load table. -/
theorem c5_timing_load_witness :
    timingLoadFor .DieselElectricMultipleUnit "93  " = .ok (.SpecificClass 93) ∧
    timingLoadFor .ElectricMultipleUnit "390 " = .ok (.SpecificClass 390) ∧
    timingLoadFor .Diesel "325 " = .ok (.LoadInTonnes 325) ∧
    timingLoadFor .Electric "325 " = .ok .Class325ElectricParcelsUnit ∧
    timingLoadFor .HighSpeedTrain "ABC " = .ok .NotSpecified ∧
    timingLoadFor .NotSpecified "    " = .ok .NotSpecified ∧
    timingLoadFor .ElectricMultipleUnit "ZZ  " = .error (.InvalidTimingLoad "ZZ  ") :=
  ⟨c5_timing_load.1 .DieselElectricMultipleUnit "93  " 93 (Or.inr rfl)
      (by decide) (by decide),
   c5_timing_load.2.1 "390 " 390 (by decide) (by decide),
   c5_timing_load.2.2.1 .Diesel "325 " 325 (Or.inl rfl) (by decide)
      (by decide) (by decide),
   c5_timing_load.2.2.2.1 "325 " (by decide),
   c5_timing_load.2.2.2.2.2.1 .HighSpeedTrain "ABC "
      (Or.inr (Or.inr rfl)),
   c5_timing_load.2.2.2.2.1 .NotSpecified "    " (by decide),
   c5_timing_load.2.2.2.2.2.2 .ElectricMultipleUnit "ZZ  " (by decide)
      (by decide) (by decide) (by decide)⟩

/-- Claim C3 counterexample: on a row with the unknown tag `QQ`,
`parse_cif` returns a bare `InvalidRecordType("QQ")`, not an
`AtLine(n, inner)` wrapper. -/
theorem c3_counterexample :
    parseCIF qqInput = .error (.InvalidRecordType "QQ") ∧
    (CIFParseError.InvalidRecordType "QQ").isAtLine = false :=
  ⟨by decide, rfl⟩

/-- Every error escaping `parseCIFLoop` is a bare `Read`, a bare
`InvalidRecordType`, or `AtLine (line + k) inner` where `inner` is exactly
the record-parser error of the `k`-th remaining row. -/
theorem parseCIFLoop_error_shape (fuel : Nat) :
    ∀ (input : List Char) (line : Nat) (acc : List CIFRecord)
      (e : CIFParseError), parseCIFLoop fuel input line acc = .error e →
      e = .Read ∨ (∃ t, e = .InvalidRecordType t) ∨
      ∃ k inner, e = .AtLine (line + k) inner ∧
        parseRowRecord?
          (String.mk ((((input.drop (81 * k)).take 81).take 80).take 2))
          (((input.drop (81 * k)).take 81).take 80) = some (.error inner) := by
  induction fuel with
  | zero =>
    intro input line acc e h
    simp only [parseCIFLoop] at h
    injection h with hh
    exact Or.inl hh.symm
  | succ fuel ih =>
    intro input line acc e h
    simp only [parseCIFLoop] at h
    by_cases hlen : input.length < 81
    · rw [if_pos hlen] at h
      injection h with hh
      exact Or.inl hh.symm
    · rw [if_neg hlen] at h
      cases hp : parseRowRecord? (String.mk (((input.take 81).take 80).take 2))
          ((input.take 81).take 80) with
      | none =>
        rw [hp] at h
        injection h with hh
        exact Or.inr (Or.inl ⟨_, hh.symm⟩)
      | some res =>
        rw [hp] at h
        cases res with
        | error e' =>
          injection h with hh
          refine Or.inr (Or.inr ⟨0, e', ?_, ?_⟩)
          · rw [← hh, Nat.add_zero]
          · rw [Nat.mul_zero, List.drop_zero]
            exact hp
        | ok record =>
          dsimp only at h
          by_cases hzz : String.mk (((input.take 81).take 80).take 2) = "ZZ"
          · rw [if_pos hzz] at h
            cases h
          · rw [if_neg hzz] at h
            rcases ih (input.drop 81) (line + 1) (acc ++ [record]) e h with
              h1 | h2 | ⟨k, inner, he, hrow⟩
            · exact Or.inl h1
            · exact Or.inr (Or.inl h2)
            · refine Or.inr (Or.inr ⟨k + 1, inner, ?_, ?_⟩)
              · rw [he]
                congr 1
                omega
              · have hd : input.drop (81 * (k + 1)) = (input.drop 81).drop (81 * k) := by
                  rw [List.drop_drop]
                  congr 1
                  omega
                rw [hd]
                exact hrow

/-- Claim C3 as amended: when `parse_cif` fails, the error is either a bare
`Read` (short read), a bare `InvalidRecordType` (unknown tag), or
`AtLine(n, inner)` where `n` is the 1-based line number of the offending
row and `inner` is exactly the error produced by that row's record parser;
record-level errors never escape unwrapped. -/
theorem c3_amended_errors (input : List Char) (e : CIFParseError)
    (h : parseCIF input = .error e) : wellFormedParseError input e := by
  have hl : parseCIFLoop input.length input 1 [] = .error e := by
    unfold parseCIF at h
    cases hres : parseCIFLoop input.length input 1 [] with
    | ok v => rw [hres] at h; simp only [Except.map] at h; cases h
    | error e' =>
      rw [hres] at h
      simp only [Except.map] at h
      injection h with hh
      rw [hh]
  rcases parseCIFLoop_error_shape _ _ _ _ _ hl with h1 | ⟨t, h2⟩ | ⟨k, inner, he, hrow⟩
  · subst h1
    simp [wellFormedParseError]
  · subst h2
    simp [wellFormedParseError]
  · subst he
    have hrw : rowAt input (1 + k) = ((input.drop (81 * k)).take 81).take 80 := by
      unfold rowAt
      congr 3
      omega
    refine ⟨by omega, ?_⟩
    rw [hrw]
    exact hrow

/-- Claim C3 amended witness: a header row with a garbage extract date
fails as `AtLine 1` wrapping exactly the header parser's error. -/
theorem c3_amended_errors_witness :
    wellFormedParseError hdBadInput (.AtLine 1 .FailedToParseDateOfExtract) :=
  c3_amended_errors hdBadInput (.AtLine 1 .FailedToParseDateOfExtract)
    (by decide)

end NrCif
